import Mathlib

/-!
Shallow embedding of the accent-classifier core (src/model.py and
src/train.py) and proofs of its specified properties.

Layer objects are modelled as a closed inductive type carrying exactly the
parameters the source passes to the Keras constructors.  Numeric
hyperparameters (regularization strengths, dropout rates, metric values)
are rationals.  Fallible construction (the pooling-operator assertion in
`_global_depth_pool`) is modelled with `Except`.
-/

set_option autoImplicit false

namespace AccentClassifier

/-- Combined L1+L2 regularization penalty, as produced by Keras `l1_l2`. -/
structure Reg where
  l1 : ℚ
  l2 : ℚ
deriving DecidableEq, Repr

/-- `l1_l2(a, b)` from `tensorflow.keras.regularizers`. -/
def l1_l2 (a b : ℚ) : Reg := ⟨a, b⟩

/-- Activation functions that appear in src/model.py. -/
inductive Activation
  | selu
  | softmax
deriving DecidableEq, Repr

/-- The pooling operator of the global depth pool. -/
inductive PoolOp
  | avg
  | max
deriving DecidableEq, Repr

/-- Parameters of an LSTM layer as constructed by `_lstm_layer`. -/
structure LSTMSpec where
  units : Nat
  return_sequences : Bool
  kernel_regularizer : Reg
  recurrent_regularizer : Reg
  bias_regularizer : Reg
  dropout : ℚ
  recurrent_dropout : ℚ
deriving DecidableEq, Repr

/-- One network layer, with the parameters the source code passes to the
corresponding Keras constructor. -/
inductive Layer
  | Reshape (target_shape : List Nat) (input_shape : List Nat)
  | Conv2D (filters : Nat) (kernel_sz : Nat) (padding : String)
      (activation : Activation) (kernel_init : String)
      (kernel_regularizer : Reg)
  | MaxPool2D (pool_size : Nat × Nat)
  | GlobalDepthPool (op : PoolOp) (lname : String)
  | Bidirectional (inner : LSTMSpec)
  | Dense (units : Nat) (activation : Activation)
  | Flatten
deriving DecidableEq, Repr

/-- The spec's ConfigurationError taxonomy entry realized by the code's
pooling-operator assertion. -/
inductive ConfigError
  | badPoolOp (pool_op : String)
deriving DecidableEq, Repr

/-- `_conv_layer(filters, kernel_sz)` from src/model.py: regularized
Conv2D with same padding, selu activation, LecunNormal initializer and
`l1_l2(0.02, 0.03)` kernel regularizer. -/
def _conv_layer (filters kernel_sz : Nat) : Layer :=
  .Conv2D filters kernel_sz "same" .selu "LecunNormal" (l1_l2 0.02 0.03)

/-- `_lstm_layer(units, ret_seq)` from src/model.py: regularized LSTM with
`l1_l2(0.02, 0.03)` on kernel, recurrent and bias weights, dropout 0.2 and
recurrent dropout 0.4. -/
def _lstm_layer (units : Nat) (ret_seq : Bool) : LSTMSpec :=
  ⟨units, ret_seq, l1_l2 0.02 0.03, l1_l2 0.02 0.03, l1_l2 0.02 0.03,
   0.2, 0.4⟩

/-- `_global_depth_pool(pool_op)` from src/model.py: asserts the operator
is `avg` or `max` (the assertion failure is the ConfigurationError of the
spec), then builds the reducing Lambda layer. -/
def _global_depth_pool (pool_op : String) : Except ConfigError Layer :=
  if pool_op = "avg" ∨ pool_op = "max" then
    .ok (.GlobalDepthPool (if pool_op = "avg" then .avg else .max)
          ("global_depth_" ++ pool_op ++ "_pool"))
  else
    .error (.badPoolOp pool_op)

/-- `_cnn_layers(in_shape)` from src/model.py: the CNN layer list without
the final predictor. -/
def _cnn_layers (in_shape : List Nat) : Except ConfigError (List Layer) := do
  let pool ← _global_depth_pool "max"
  pure [Layer.Reshape (in_shape ++ [1]) in_shape,
        _conv_layer 32 5,
        Layer.MaxPool2D (1, 2),
        _conv_layer 64 3,
        Layer.MaxPool2D (1, 2),
        _conv_layer 64 3,
        pool]

/-- `_lstm_layers(num_labels)` from src/model.py: the BiLSTM layer list
with the final predictor. -/
def _lstm_layers (num_labels : Nat) : List Layer :=
  [.Bidirectional (_lstm_layer 36 true),
   .Bidirectional (_lstm_layer 36 true),
   .Bidirectional (_lstm_layer 36 false),
   .Dense num_labels .softmax]

/-- A Keras `Sequential` model: a name and its ordered layer list. -/
structure Model where
  name : String
  layers : List Layer
deriving DecidableEq, Repr

/-- `get_cnn(in_shape, num_labels)` from src/model.py. -/
def get_cnn (in_shape : List Nat) (num_labels : Nat) :
    Except ConfigError Model := do
  let cnn ← _cnn_layers in_shape
  pure ⟨"cnn", cnn ++ [.Flatten, .Dense num_labels .softmax]⟩

/-- `get_bilstm(num_labels)` from src/model.py. -/
def get_bilstm (num_labels : Nat) : Model :=
  ⟨"bilstm", _lstm_layers num_labels⟩

/-- `get_cnn_bilstm(in_shape, num_labels)` from src/model.py. -/
def get_cnn_bilstm (in_shape : List Nat) (num_labels : Nat) :
    Except ConfigError Model := do
  let cnn ← _cnn_layers in_shape
  pure ⟨"cnn_bilstm", cnn ++ _lstm_layers num_labels⟩

/-- The kind of a layer, forgetting its parameters; used to state that an
architecture's layer sequence follows a fixed schema. -/
inductive LayerKind
  | reshape
  | conv
  | pool
  | depthPool
  | bidir
  | dense
  | flatten
deriving DecidableEq, Repr

/-- Forgetful map from a layer to its kind. -/
def layerKind : Layer → LayerKind
  | .Reshape _ _ => .reshape
  | .Conv2D _ _ _ _ _ _ => .conv
  | .MaxPool2D _ => .pool
  | .GlobalDepthPool _ _ => .depthPool
  | .Bidirectional _ => .bidir
  | .Dense _ _ => .dense
  | .Flatten => .flatten

/-! ## Training orchestrator (src/train.py) -/

/-- `tracked_metrics = ['accuracy']` from src/train.py. -/
def tracked_metrics : List String := ["accuracy"]

/-- Configuration of one Keras `ModelCheckpoint` callback, with the fields
src/train.py passes. -/
structure ModelCheckpointCfg where
  filepath : String
  monitor : String
  save_best_only : Bool
deriving DecidableEq, Repr

/-- The checkpoint callbacks built by src/train.py lines 50-53: one per
tracked metric plus loss, file `{name}_{met}.hdf5`, monitoring
`val_{met}`, saving best only. -/
def checkpoints (name : String) : List ModelCheckpointCfg :=
  (tracked_metrics ++ ["loss"]).map fun met =>
    ⟨name ++ "_" ++ met ++ ".hdf5", "val_" ++ met, true⟩

/-- Improvement direction of a monitored metric. -/
inductive Direction
  | minimize
  | maximize
deriving DecidableEq, Repr

/-- Modelled from the spec: the improvement direction of a tracked-metric
name ("lower for loss, higher for accuracy-like metrics"); the Keras mode
inference for the monitors used here is not in src/. -/
def metricDirection (met : String) : Direction :=
  if met = "loss" then .minimize else .maximize

/-- State of one metric's checkpoint: the best observed validation value
so far and the epoch whose weights are currently stored in the checkpoint
file (1-based; `none` means no snapshot written yet). -/
structure CkptState where
  best : Option ℚ
  storedEpoch : Option Nat
deriving DecidableEq, Repr

/-- Modelled from the spec: whether a new validation value strictly
improves on the recorded best (any value improves on an empty record); the
`ModelCheckpoint` comparison logic lives in Keras, not in src/. -/
def improves (d : Direction) (current : ℚ) (best : Option ℚ) : Bool :=
  match best with
  | none => true
  | some b =>
    match d with
    | .minimize => decide (current < b)
    | .maximize => decide (b < current)

/-- Modelled from the spec: the end-of-epoch action of a best-only
`ModelCheckpoint` — persist the current weights and update the recorded
best exactly on strict improvement, otherwise leave the record untouched. -/
def checkpointStep (d : Direction) (s : CkptState) (epoch : Nat)
    (value : ℚ) : CkptState :=
  if improves d value s.best then ⟨some value, some epoch⟩ else s

/-- Run a best-only checkpoint over the per-epoch validation values of its
monitored metric (epochs numbered from 1). -/
def runCheckpoints (d : Direction) (vals : List ℚ) : CkptState :=
  vals.enum.foldl (fun s p => checkpointStep d s (p.1 + 1) p.2)
    ⟨none, none⟩

/-- Batches consumed by one epoch phase. -/
structure EpochLog where
  trainBatches : Nat
  valBatches : Nat
deriving DecidableEq, Repr

/-- Draw `steps` batches one at a time from a stream cursor; returns the
advanced cursor and the number of batches drawn. -/
def consume (cursor : Nat) : Nat → Nat × Nat
  | 0 => (cursor, 0)
  | n + 1 =>
    let r := consume (cursor + 1) n
    (r.1, r.2 + 1)

/-- Modelled from the spec: the epoch loop of `model.fit` — run the given
number of epoch iterations, each drawing `train_steps` batches from the
training stream and then `val_steps` batches from the validation stream;
returns the per-epoch logs and the final positions of both cursors. -/
def fitLoop (train_steps val_steps : Nat) :
    Nat → Nat → Nat → List EpochLog × Nat × Nat
  | 0, tc, vc => ([], tc, vc)
  | e + 1, tc, vc =>
    let t := consume tc train_steps
    let v := consume vc val_steps
    let rest := fitLoop train_steps val_steps e t.1 v.1
    (⟨t.2, v.2⟩ :: rest.1, rest.2)

/-- The keys of the training history: each tracked metric plus loss, in
train and validation variants. -/
def historyKeys (tracked : List String) : List String :=
  (tracked ++ ["loss"]) ++ (tracked ++ ["loss"]).map (fun m => "val_" ++ m)

/-- Modelled from the spec: the history record returned by `model.fit` —
for every key, the ordered per-epoch value sequence, given the scalar
value of each metric at each epoch. -/
def fitHistory (epochs : Nat) (tracked : List String)
    (vals : Nat → String → ℚ) : List (String × List ℚ) :=
  (historyKeys tracked).map fun k =>
    (k, (List.range epochs).map fun e => vals e k)

/-- Observable events of one invocation of `train()`. -/
inductive Event
  | access (field : String)
  | keyError (field : String)
  | epochRun (i : Nat)
  | historyDump (file : String)
  | plotSave (file : String)
  | loadWeights (path : String)
  | evalReport (met : String) (steps : Nat)
deriving DecidableEq, Repr

/-- Look up each hyperparameter field in order; a missing field raises
KeyError and stops the run.  Modelled from the spec: the configuration is
an implicit dictionary that fails lazily on first access of a missing
field (the loader itself lives outside src/). -/
def runAccesses (hyp : String → Option Nat) :
    List String → List Event × Bool
  | [] => ([], true)
  | f :: fs =>
    match hyp f with
    | none => ([.keyError f], false)
    | some _ =>
      let r := runAccesses hyp fs
      (.access f :: r.1, r.2)

/-- The hyperparameter fields src/train.py reads before `model.fit` runs,
in source order: `shuffle_buffer` and `batch_size` once per stream in the
dataset comprehension (lines 36-39), `learning_rate` at compile (line 45),
then the keyword arguments of the fit call (lines 55-58). -/
def pre_fit_fields : List String :=
  ["shuffle_buffer", "batch_size", "shuffle_buffer", "batch_size",
   "shuffle_buffer", "batch_size", "learning_rate",
   "epochs", "train_steps", "val_steps", "cpu_cores"]

/-- The evaluation loop of src/train.py lines 66-69: for each tracked
metric plus loss, load that metric's checkpoint and evaluate on
`test_steps` test batches (`test_steps` is read inside the loop body). -/
def evalLoop (hyp : String → Option Nat) (name : String) :
    List String → List Event
  | [] => []
  | met :: ms =>
    Event.loadWeights (name ++ "_" ++ met ++ ".hdf5") ::
    match hyp "test_steps" with
    | none => [Event.keyError "test_steps"]
    | some s => Event.evalReport met s :: evalLoop hyp name ms

/-- The event trace of `train()` from src/train.py for a model named
`name`: read the pre-fit hyperparameters (any missing one aborts), run the
epochs, pickle the history once, read `plot_dpi`, save one plot per metric
plus loss, then run the evaluation loop. -/
def trainRun (hyp : String → Option Nat) (name : String) : List Event :=
  let pre := runAccesses hyp pre_fit_fields
  if pre.2 = false then pre.1 else
  let epochs := (hyp "epochs").getD 0
  pre.1
    ++ (List.range epochs).map Event.epochRun
    ++ [Event.historyDump (name ++ "_history.pickle")]
    ++ match hyp "plot_dpi" with
       | none => [Event.keyError "plot_dpi"]
       | some _ =>
         Event.access "plot_dpi" ::
         ((tracked_metrics ++ ["loss"]).map fun met =>
            Event.plotSave (name ++ "_" ++ met ++ ".png"))
         ++ evalLoop hyp name (tracked_metrics ++ ["loss"])

/-- The required hyperparameter fields named by the spec. -/
def hyperparameter_fields : List String :=
  ["shuffle_buffer", "batch_size", "epochs", "train_steps", "val_steps",
   "test_steps", "learning_rate", "cpu_cores", "plot_dpi"]

/-! ## Auxiliary predicates for the theorems -/

/-- A 2-D pool size pools along the time axis only: window larger than one
along the first spatial axis (time, per the spec's `(T, F)` input
convention) and trivial along the second. -/
def pools_time_axis_only (p : Nat × Nat) : Prop := 1 < p.1 ∧ p.2 = 1

/-- A 2-D pool size pools along the feature axis only: trivial window
along the first spatial axis (time) and larger than one along the second
(features). -/
def pools_feature_axis_only (p : Nat × Nat) : Prop := p.1 = 1 ∧ 1 < p.2

instance (p : Nat × Nat) : Decidable (pools_time_axis_only p) := by
  unfold pools_time_axis_only; infer_instance

instance (p : Nat × Nat) : Decidable (pools_feature_axis_only p) := by
  unfold pools_feature_axis_only; infer_instance

/-- Modelled from the spec: the output spatial shape of a Keras MaxPool2D
(default stride equal to the pool size) on an evenly divisible input. -/
def maxPool2DOutShape (pool shape : Nat × Nat) : Nat × Nat :=
  (shape.1 / pool.1, shape.2 / pool.2)

/-- Whether a layer is the avg variant of the global depth pool. -/
def isAvgDepthPool : Layer → Bool
  | .GlobalDepthPool .avg _ => true
  | _ => false

/-- Whether an event is an evaluation report. -/
def isEvalEvent : Event → Bool
  | .evalReport _ _ => true
  | _ => false

/-- Whether an event is a checkpoint-weights load. -/
def isLoadEvent : Event → Bool
  | .loadWeights _ => true
  | _ => false

/-- Whether an event is the history pickle dump. -/
def isHistoryDump : Event → Bool
  | .historyDump _ => true
  | _ => false

/-! ## Claim theorems for src/model.py -/

/-- C2: for each of the three architecture names (cnn, bilstm,
cnn_bilstm) and for every input shape and label count, the factory returns
a model whose final layer is a dense softmax of width equal to the
supplied label count, and whose ordered layer-kind sequence is the fixed
schema of that architecture — in particular the layer count per name is
the fixed constant 9 / 4 / 11. -/
theorem C2_factory_schema (in_shape : List Nat) (num_labels : Nat) :
    (∃ m, get_cnn in_shape num_labels = Except.ok m ∧ m.name = "cnn" ∧
      m.layers.map layerKind =
        [.reshape, .conv, .pool, .conv, .pool, .conv, .depthPool,
         .flatten, .dense] ∧
      m.layers.length = 9 ∧
      m.layers.getLast? = some (.Dense num_labels .softmax)) ∧
    ((get_bilstm num_labels).name = "bilstm" ∧
      (get_bilstm num_labels).layers.map layerKind =
        [.bidir, .bidir, .bidir, .dense] ∧
      (get_bilstm num_labels).layers.length = 4 ∧
      (get_bilstm num_labels).layers.getLast? =
        some (.Dense num_labels .softmax)) ∧
    (∃ m, get_cnn_bilstm in_shape num_labels = Except.ok m ∧
      m.name = "cnn_bilstm" ∧
      m.layers.map layerKind =
        [.reshape, .conv, .pool, .conv, .pool, .conv, .depthPool,
         .bidir, .bidir, .bidir, .dense] ∧
      m.layers.length = 11 ∧
      m.layers.getLast? = some (.Dense num_labels .softmax)) :=
  ⟨⟨_, rfl, rfl, rfl, rfl, rfl⟩,
   ⟨rfl, rfl, rfl, rfl⟩,
   ⟨_, rfl, rfl, rfl, rfl, rfl⟩⟩

/-- C3 counterexample: in the convolutional stack the pooling layers have
pool size (1, 2), which does not pool along the time axis only — the
window is trivial along the time (first) axis and halves the feature
(second) axis, as the concrete output shape (4, 6) ↦ (4, 3) shows. -/
theorem C3_counterexample :
    ¬ (∀ cs, _cnn_layers [4, 6] = Except.ok cs →
        ∀ p, Layer.MaxPool2D p ∈ cs → pools_time_axis_only p) := by
  intro h
  have hmem := h _ rfl (1, 2) (by decide)
  exact absurd hmem (by decide)

/-- C3 (amended): for every input shape, the convolutional stack builder
returns, in order: a reshape adding a channel axis; a 32-filter/kernel-5
convolution followed by a pool; a 64-filter/kernel-3 convolution followed
by a pool; a 64-filter/kernel-3 convolution with no trailing pool; and a
global depth (max) pool — each convolution with selu activation, Lecun
initializer and an L1+L2 penalty of strengths 0.02 and 0.03.  Each pool
has size (1, 2): it pools along the feature (second) axis only and leaves
the time (first) axis unchanged. -/
theorem C3_conv_stack (in_shape : List Nat) :
    _cnn_layers in_shape = Except.ok
      [Layer.Reshape (in_shape ++ [1]) in_shape,
       Layer.Conv2D 32 5 "same" .selu "LecunNormal" ⟨0.02, 0.03⟩,
       Layer.MaxPool2D (1, 2),
       Layer.Conv2D 64 3 "same" .selu "LecunNormal" ⟨0.02, 0.03⟩,
       Layer.MaxPool2D (1, 2),
       Layer.Conv2D 64 3 "same" .selu "LecunNormal" ⟨0.02, 0.03⟩,
       Layer.GlobalDepthPool .max "global_depth_max_pool"] ∧
    pools_feature_axis_only (1, 2) ∧
    (∀ t f : Nat, (maxPool2DOutShape (1, 2) (t, f)).1 = t ∧
      (maxPool2DOutShape (1, 2) (t, f)).2 = f / 2) :=
  ⟨rfl, by decide, fun t f => ⟨Nat.div_one t, rfl⟩⟩

/-- C5: for every pooling-operator argument other than "avg" and "max",
the global depth pool builder fails with the ConfigurationError of the
spec (the code's assertion), and no layer value is produced. -/
theorem C5_unknown_pool_op (pool_op : String)
    (h1 : pool_op ≠ "avg") (h2 : pool_op ≠ "max") :
    _global_depth_pool pool_op = Except.error (.badPoolOp pool_op) ∧
    ∀ l : Layer, _global_depth_pool pool_op ≠ Except.ok l := by
  have hno : ¬ (pool_op = "avg" ∨ pool_op = "max") := by
    rintro (h | h)
    · exact h1 h
    · exact h2 h
  refine ⟨?_, ?_⟩
  · rw [_global_depth_pool, if_neg hno]
  · intro l hl
    rw [_global_depth_pool, if_neg hno] at hl
    exact Except.noConfusion hl

/-- Witness for C5 at the concrete unrecognized operator "mean". -/
theorem C5_unknown_pool_op_witness :
    _global_depth_pool "mean" = Except.error (.badPoolOp "mean") ∧
    ∀ l : Layer, _global_depth_pool "mean" ≠ Except.ok l :=
  C5_unknown_pool_op "mean" (by decide) (by decide)

/-- C6: for every label count, the recurrent stack builder returns exactly
three bidirectional LSTM blocks of 36 units, each with L1+L2 penalties of
strengths 0.02/0.03 on kernel, recurrent and bias weights, input dropout
0.2 and recurrent dropout 0.4; the first two return sequences, the third
does not; followed by a dense softmax layer over the labels. -/
theorem C6_recurrent_stack (num_labels : Nat) :
    _lstm_layers num_labels =
      [Layer.Bidirectional
         ⟨36, true, ⟨0.02, 0.03⟩, ⟨0.02, 0.03⟩, ⟨0.02, 0.03⟩, 0.2, 0.4⟩,
       Layer.Bidirectional
         ⟨36, true, ⟨0.02, 0.03⟩, ⟨0.02, 0.03⟩, ⟨0.02, 0.03⟩, 0.2, 0.4⟩,
       Layer.Bidirectional
         ⟨36, false, ⟨0.02, 0.03⟩, ⟨0.02, 0.03⟩, ⟨0.02, 0.03⟩, 0.2, 0.4⟩,
       Layer.Dense num_labels .softmax] ∧
    ((_lstm_layers num_labels).filter
       (fun l => layerKind l == LayerKind.bidir)).length = 3 :=
  ⟨rfl, rfl⟩

/-- C10: the public constructors that include the convolutional stack use
the max variant of the global depth pool; the avg variant appears in no
public constructor's output, and `_global_depth_pool "max"` — the only
call reachable from the public interface — succeeds, so the validity check
cannot fail from the public interface. -/
theorem C10_depth_pool_safety (in_shape : List Nat) (num_labels : Nat) :
    _global_depth_pool "max" =
      Except.ok (.GlobalDepthPool .max "global_depth_max_pool") ∧
    (∃ cs, _cnn_layers in_shape = Except.ok cs) ∧
    (∃ m, get_cnn in_shape num_labels = Except.ok m ∧
      m.layers.contains
        (Layer.GlobalDepthPool .max "global_depth_max_pool") = true ∧
      m.layers.all (fun l => !(isAvgDepthPool l)) = true) ∧
    (∃ m, get_cnn_bilstm in_shape num_labels = Except.ok m ∧
      m.layers.contains
        (Layer.GlobalDepthPool .max "global_depth_max_pool") = true ∧
      m.layers.all (fun l => !(isAvgDepthPool l)) = true) ∧
    (get_bilstm num_labels).layers.all
      (fun l => !(isAvgDepthPool l)) = true :=
  ⟨rfl, ⟨_, rfl⟩, ⟨_, rfl, rfl, rfl⟩, ⟨_, rfl, rfl, rfl⟩, rfl⟩

/-! ## Helper lemmas for the orchestrator theorems -/

theorem consume_spec :
    ∀ steps cursor : Nat, consume cursor steps = (cursor + steps, steps) := by
  intro steps
  induction steps with
  | zero => intro c; rfl
  | succ n ih =>
    intro c
    simp only [consume, ih, Prod.mk.injEq]
    and_intros <;> first | trivial | omega

theorem fitLoop_spec (train_steps val_steps : Nat) :
    ∀ epochs tc vc : Nat,
    fitLoop train_steps val_steps epochs tc vc =
      (List.replicate epochs ⟨train_steps, val_steps⟩,
       tc + epochs * train_steps, vc + epochs * val_steps) := by
  intro epochs
  induction epochs with
  | zero => intro tc vc; simp [fitLoop]
  | succ e ih =>
    intro tc vc
    simp only [fitLoop, consume_spec, ih, List.replicate_succ,
      Prod.mk.injEq]
    and_intros <;> first | trivial | ring

theorem runAccesses_all_some (hyp : String → Option Nat) :
    ∀ fs : List String, (∀ f ∈ fs, (hyp f).isSome) →
      runAccesses hyp fs = (fs.map Event.access, true) := by
  intro fs
  induction fs with
  | nil => intro _; rfl
  | cons f fs ih =>
    intro hall
    obtain ⟨v, hv⟩ :=
      Option.isSome_iff_exists.mp (hall f (List.mem_cons_self f fs))
    simp [runAccesses, hv,
      ih (fun g hg => hall g (List.mem_cons_of_mem f hg))]

theorem runAccesses_missing (hyp : String → Option Nat) :
    ∀ fs : List String, (∃ f ∈ fs, hyp f = none) →
      ∃ evs, runAccesses hyp fs = (evs, false) ∧
        (∃ g, hyp g = none ∧ Event.keyError g ∈ evs) ∧
        (∀ e ∈ evs,
          (∃ a, e = Event.access a) ∨ ∃ b, e = Event.keyError b) := by
  intro fs
  induction fs with
  | nil => rintro ⟨f, hf, _⟩; exact absurd hf (List.not_mem_nil f)
  | cons f fs ih =>
    rintro ⟨g, hg, hgnone⟩
    cases hv : hyp f with
    | none =>
      refine ⟨[Event.keyError f], by simp [runAccesses, hv],
        ⟨f, hv, List.mem_singleton_self _⟩, ?_⟩
      intro e he
      rw [List.mem_singleton] at he
      exact Or.inr ⟨f, he⟩
    | some v =>
      have hgfs : g ∈ fs := by
        rcases List.mem_cons.mp hg with h | h
        · subst h; rw [hgnone] at hv; exact Option.noConfusion hv
        · exact h
      obtain ⟨evs, hevs, hker, hshape⟩ := ih ⟨g, hgfs, hgnone⟩
      refine ⟨Event.access f :: evs, by simp [runAccesses, hv, hevs],
        ?_, ?_⟩
      · obtain ⟨k, hk1, hk2⟩ := hker
        exact ⟨k, hk1, List.mem_cons_of_mem _ hk2⟩
      · intro e he
        rcases List.mem_cons.mp he with h | h
        · exact Or.inl ⟨f, h⟩
        · exact hshape e h

theorem filter_map_none {α : Type} (p : Event → Bool) (g : α → Event)
    (h : ∀ a, p (g a) = false) :
    ∀ l : List α, (l.map g).filter p = [] := by
  intro l
  induction l with
  | nil => rfl
  | cons a l ih => simp [List.filter_cons, h a, ih]

theorem evalLoop_filter_dump (hyp : String → Option Nat) (name : String) :
    ∀ ms : List String,
      (evalLoop hyp name ms).filter isHistoryDump = [] := by
  intro ms
  induction ms with
  | nil => rfl
  | cons m ms ih =>
    cases hts : hyp "test_steps" with
    | none => simp [evalLoop, hts, isHistoryDump, List.filter_cons]
    | some s => simp [evalLoop, hts, isHistoryDump, List.filter_cons, ih]

theorem trainRun_complete (hyp : String → Option Nat) (name : String)
    (e d : Nat)
    (hall : ∀ f ∈ pre_fit_fields, (hyp f).isSome)
    (hep : hyp "epochs" = some e) (hdp : hyp "plot_dpi" = some d) :
    trainRun hyp name =
      pre_fit_fields.map Event.access
        ++ (List.range e).map Event.epochRun
        ++ [Event.historyDump (name ++ "_history.pickle")]
        ++ Event.access "plot_dpi"
          :: Event.plotSave (name ++ "_" ++ "accuracy" ++ ".png")
          :: Event.plotSave (name ++ "_" ++ "loss" ++ ".png")
          :: evalLoop hyp name ["accuracy", "loss"] := by
  rw [trainRun, runAccesses_all_some hyp pre_fit_fields hall]
  simp [hep, hdp, tracked_metrics]

/-! ## Claim theorems for src/train.py -/

/-- C1: for every tracked metric and for loss the orchestrator keeps an
independent best-only checkpoint (monitor `val_{met}`, one file per
metric); a validation value is persisted exactly when it strictly improves
on the recorded best (lower for loss, higher for accuracy-like metrics), a
non-improving epoch leaves the stored checkpoint unchanged, and on the
validation-loss sequence [0.9, 0.7, 0.8] the loss checkpoint holds the
weights of epoch 2. -/
theorem C1_checkpoint_selection :
    ((checkpoints "cnn").map (fun c => c.monitor) =
        ["val_accuracy", "val_loss"] ∧
      (checkpoints "cnn").map (fun c => c.save_best_only) =
        [true, true]) ∧
    (∀ (d : Direction) (epoch : Nat) (v : ℚ),
      checkpointStep d ⟨none, none⟩ epoch v = ⟨some v, some epoch⟩) ∧
    (∀ (s : CkptState) (epoch : Nat) (v b : ℚ), s.best = some b →
      (v < b →
        checkpointStep .minimize s epoch v = ⟨some v, some epoch⟩) ∧
      (¬ v < b → checkpointStep .minimize s epoch v = s)) ∧
    (∀ (s : CkptState) (epoch : Nat) (v b : ℚ), s.best = some b →
      (b < v →
        checkpointStep .maximize s epoch v = ⟨some v, some epoch⟩) ∧
      (¬ b < v → checkpointStep .maximize s epoch v = s)) ∧
    (runCheckpoints (metricDirection "loss") [0.9, 0.7, 0.8]).storedEpoch
      = some 2 := by
  refine ⟨⟨rfl, rfl⟩, ?_, ?_, ?_, ?_⟩
  · intro d epoch v; cases d <;> rfl
  · intro s epoch v b hb
    refine ⟨fun hvb => ?_, fun hvb => ?_⟩ <;>
      simp [checkpointStep, improves, hb, hvb]
  · intro s epoch v b hb
    refine ⟨fun hvb => ?_, fun hvb => ?_⟩ <;>
      simp [checkpointStep, improves, hb, hvb]
  · norm_num [runCheckpoints, List.enum, List.enumFrom, checkpointStep,
      improves, metricDirection]

/-- Witness for C1 at concrete inputs: an improving loss epoch is saved, a
non-improving one is not; dually for an accuracy-like metric. -/
theorem C1_checkpoint_selection_witness :
    checkpointStep .minimize ⟨some 0.9, some 1⟩ 2 0.7 =
      ⟨some 0.7, some 2⟩ ∧
    checkpointStep .minimize ⟨some 0.7, some 2⟩ 3 0.8 =
      ⟨some 0.7, some 2⟩ ∧
    checkpointStep .maximize ⟨some 0.5, some 1⟩ 2 0.6 =
      ⟨some 0.6, some 2⟩ ∧
    checkpointStep .maximize ⟨some 0.6, some 2⟩ 3 0.4 =
      ⟨some 0.6, some 2⟩ :=
  ⟨(C1_checkpoint_selection.2.2.1 ⟨some 0.9, some 1⟩ 2 0.7 0.9 rfl).1
      (by norm_num),
   (C1_checkpoint_selection.2.2.1 ⟨some 0.7, some 2⟩ 3 0.8 0.7 rfl).2
      (by norm_num),
   (C1_checkpoint_selection.2.2.2.1 ⟨some 0.5, some 1⟩ 2 0.6 0.5 rfl).1
      (by norm_num),
   (C1_checkpoint_selection.2.2.2.1 ⟨some 0.6, some 2⟩ 3 0.4 0.6 rfl).2
      (by norm_num)⟩

/-- C4 counterexample: `plot_dpi` is a required hyperparameter field, yet
when it alone is missing the run is not aborted before training — both
epochs run before the KeyError is raised (first access of `plot_dpi` is
after `model.fit`). -/
theorem C4_counterexample :
    "plot_dpi" ∈ hyperparameter_fields ∧
    (fun f => if f = "plot_dpi" then none else some 2) "plot_dpi" =
      (none : Option Nat) ∧
    Event.epochRun 0 ∈
      trainRun (fun f => if f = "plot_dpi" then none else some 2) "cnn" ∧
    Event.epochRun 1 ∈
      trainRun (fun f => if f = "plot_dpi" then none else some 2) "cnn" ∧
    Event.keyError "plot_dpi" ∈
      trainRun (fun f => if f = "plot_dpi" then none else some 2) "cnn" := by
  decide

/-- C4 (amended): a missing hyperparameter field always aborts the run
(no defaulting), but detection is lazy, at first access: the fields read
before `model.fit` (`shuffle_buffer`, `batch_size`, `learning_rate`,
`epochs`, `train_steps`, `val_steps`, `cpu_cores`) abort before any epoch
runs — no epoch, no history dump and no evaluation happens — while a
missing `plot_dpi` or `test_steps` aborts only after all epochs have
completed. -/
theorem C4_missing_field_detection (hyp : String → Option Nat)
    (name : String) (f : String) (hf : f ∈ pre_fit_fields)
    (hmiss : hyp f = none) :
    ((∃ g, hyp g = none ∧ Event.keyError g ∈ trainRun hyp name) ∧
     (∀ i, Event.epochRun i ∉ trainRun hyp name) ∧
     (∀ file, Event.historyDump file ∉ trainRun hyp name) ∧
     (∀ met steps, Event.evalReport met steps ∉ trainRun hyp name)) ∧
    (Event.keyError "plot_dpi" ∈
       trainRun (fun g => if g = "plot_dpi" then none else some 2) "cnn" ∧
     Event.epochRun 0 ∈
       trainRun (fun g => if g = "plot_dpi" then none else some 2) "cnn" ∧
     Event.keyError "test_steps" ∈
       trainRun (fun g => if g = "test_steps" then none else some 2) "cnn" ∧
     Event.epochRun 0 ∈
       trainRun (fun g => if g = "test_steps" then none else some 2)
         "cnn") := by
  obtain ⟨evs, hevs, hker, hshape⟩ :=
    runAccesses_missing hyp pre_fit_fields ⟨f, hf, hmiss⟩
  have htr : trainRun hyp name = evs := by
    simp [trainRun, hevs]
  refine ⟨⟨?_, ?_, ?_, ?_⟩, by decide⟩
  · obtain ⟨g, hg1, hg2⟩ := hker
    exact ⟨g, hg1, htr ▸ hg2⟩
  · intro i hi
    rw [htr] at hi
    rcases hshape _ hi with ⟨a, ha⟩ | ⟨b, hb⟩
    · exact Event.noConfusion ha
    · exact Event.noConfusion hb
  · intro file hfile
    rw [htr] at hfile
    rcases hshape _ hfile with ⟨a, ha⟩ | ⟨b, hb⟩
    · exact Event.noConfusion ha
    · exact Event.noConfusion hb
  · intro met steps hrep
    rw [htr] at hrep
    rcases hshape _ hrep with ⟨a, ha⟩ | ⟨b, hb⟩
    · exact Event.noConfusion ha
    · exact Event.noConfusion hb

/-- Witness for C4 (amended) at a configuration missing `train_steps`:
the run reaches no epoch. -/
theorem C4_missing_field_detection_witness :
    Event.epochRun 0 ∉
      trainRun (fun g => if g = "train_steps" then none else some 2)
        "cnn" :=
  ((C4_missing_field_detection
      (fun g => if g = "train_steps" then none else some 2) "cnn"
      "train_steps" (by decide) (by decide)).1.2.1) 0

/-- C7: a training run executes exactly `epochs` epoch iterations; each
iteration consumes exactly `train_steps` batches from the training stream
and `val_steps` batches from the validation stream, so the two stream
cursors advance by `epochs * train_steps` and `epochs * val_steps`. -/
theorem C7_epoch_budget (epochs train_steps val_steps tc vc : Nat) :
    (fitLoop train_steps val_steps epochs tc vc).1.length = epochs ∧
    (∀ log ∈ (fitLoop train_steps val_steps epochs tc vc).1,
      log = EpochLog.mk train_steps val_steps) ∧
    (fitLoop train_steps val_steps epochs tc vc).2.1 =
      tc + epochs * train_steps ∧
    (fitLoop train_steps val_steps epochs tc vc).2.2 =
      vc + epochs * val_steps := by
  rw [fitLoop_spec]
  exact ⟨List.length_replicate _ _,
    fun log h => List.eq_of_mem_replicate h, rfl, rfl⟩

/-- Witness for C7 at 2 epochs, 3 train steps and 2 validation steps. -/
theorem C7_epoch_budget_witness :
    (fitLoop 3 2 2 0 0).1.getD 0 ⟨9, 9⟩ = EpochLog.mk 3 2 :=
  (C7_epoch_budget 2 3 2 0 0).2.1 _ (by decide)

/-- C8: the training history maps each tracked metric plus loss, in train
and validation variants, to a per-epoch sequence of length `epochs`, and a
completed run persists it to durable storage exactly once. -/
theorem C8_history_persisted (hyp : String → Option Nat) (name : String)
    (epochs : Nat) (vals : Nat → String → ℚ)
    (hall : ∀ f ∈ pre_fit_fields, (hyp f).isSome)
    (hdpi : (hyp "plot_dpi").isSome) :
    ((fitHistory epochs tracked_metrics vals).map Prod.fst =
      ["accuracy", "loss", "val_accuracy", "val_loss"]) ∧
    (∀ kv ∈ fitHistory epochs tracked_metrics vals,
      kv.2.length = epochs) ∧
    ((trainRun hyp name).filter isHistoryDump =
      [Event.historyDump (name ++ "_history.pickle")]) := by
  refine ⟨rfl, ?_, ?_⟩
  · intro kv hkv
    simp only [fitHistory, List.mem_map] at hkv
    obtain ⟨k, _, hk⟩ := hkv
    rw [← hk]
    simp
  · obtain ⟨e, hep⟩ :=
      Option.isSome_iff_exists.mp (hall "epochs" (by decide))
    obtain ⟨d, hdp⟩ := Option.isSome_iff_exists.mp hdpi
    rw [trainRun_complete hyp name e d hall hep hdp]
    simp [List.filter_append, List.filter_cons, isHistoryDump,
      filter_map_none isHistoryDump Event.access (fun a => rfl),
      filter_map_none isHistoryDump Event.epochRun (fun a => rfl),
      evalLoop_filter_dump]

/-- Witness for C8 with every field present and value 2. -/
theorem C8_history_persisted_witness :
    (trainRun (fun _ => some 2) "cnn").filter isHistoryDump =
      [Event.historyDump ("cnn" ++ "_history.pickle")] ∧
    (fitHistory 3 tracked_metrics fun _ _ => 0).map Prod.fst =
      ["accuracy", "loss", "val_accuracy", "val_loss"] :=
  ⟨(C8_history_persisted (fun _ => some 2) "cnn" 3 (fun _ _ => 0)
      (by decide) (by decide)).2.2,
   (C8_history_persisted (fun _ => some 2) "cnn" 3 (fun _ _ => 0)
      (by decide) (by decide)).1⟩

/-- C9: after training, the evaluation runner produces exactly one report
per tracked metric plus loss, each over `test_steps` test batches, loading
the weights from that metric's checkpoint file, whose name is determined
solely by the model (architecture) name and the metric name — the same
paths the checkpoint callbacks write. -/
theorem C9_eval_runner (hyp : String → Option Nat) (name : String)
    (n : Nat)
    (hall : ∀ f ∈ pre_fit_fields, (hyp f).isSome)
    (hdpi : (hyp "plot_dpi").isSome)
    (hts : hyp "test_steps" = some n) :
    (trainRun hyp name).filter isEvalEvent =
      [Event.evalReport "accuracy" n, Event.evalReport "loss" n] ∧
    (trainRun hyp name).filter isLoadEvent =
      [Event.loadWeights (name ++ "_" ++ "accuracy" ++ ".hdf5"),
       Event.loadWeights (name ++ "_" ++ "loss" ++ ".hdf5")] ∧
    (checkpoints name).map (fun c => c.filepath) =
      [name ++ "_" ++ "accuracy" ++ ".hdf5",
       name ++ "_" ++ "loss" ++ ".hdf5"] := by
  obtain ⟨e, hep⟩ :=
    Option.isSome_iff_exists.mp (hall "epochs" (by decide))
  obtain ⟨d, hdp⟩ := Option.isSome_iff_exists.mp hdpi
  refine ⟨?_, ?_, rfl⟩ <;>
  · rw [trainRun_complete hyp name e d hall hep hdp]
    simp [List.filter_append, List.filter_cons, isEvalEvent, isLoadEvent,
      evalLoop, hts,
      filter_map_none isEvalEvent Event.access (fun a => rfl),
      filter_map_none isEvalEvent Event.epochRun (fun a => rfl),
      filter_map_none isLoadEvent Event.access (fun a => rfl),
      filter_map_none isLoadEvent Event.epochRun (fun a => rfl)]

/-- Witness for C9 with every field present and value 2. -/
theorem C9_eval_runner_witness :
    (trainRun (fun _ => some 2) "cnn").filter isEvalEvent =
      [Event.evalReport "accuracy" 2, Event.evalReport "loss" 2] :=
  (C9_eval_runner (fun _ => some 2) "cnn" 2 (by decide) (by decide)
    rfl).1

end AccentClassifier
